import Mathlib

/- Shallow embedding of the TTS-Cloudflare worker (src/worker/index.js) together
with the D1 schema (database/schema.sql).  JS strings are modelled as lists of
characters, JS numbers as rationals (the worker only manipulates finite decimal
values; the NaN results of parseInt/parseFloat are modelled as Option.none),
and the D1 database as in-memory lists of rows.  External adapters (R2, the
Stream API, Workers AI) are modelled as function-valued environments returning
Option results, none standing for a thrown or failed call. -/

set_option maxRecDepth 4000

namespace TTSWorker

/- The Batteries rational arithmetic is irreducible by default, which blocks
the evaluation of closed propositions about concrete database states; local
semireducibility restores it for this development. -/
attribute [local semireducible] Rat.add Rat.mul Rat.inv Rat.sub Rat.ofScientific

/-- JS strings, modelled as lists of characters.  (JS string lengths count
UTF-16 code units while this model counts characters; none of the verified
properties depends on the length of a non-ASCII character.) -/
abbrev Str := List Char

/-- Whitespace as recognised by JS trim / parseInt / parseFloat (ASCII part). -/
def isWsC (c : Char) : Bool :=
  c = ' ' || c = '\t' || c = '\n' || c = '\r' || c = '\x0b' || c = '\x0c'

/-- JS String.prototype.trim: drop whitespace from both ends. -/
def trimStr (s : Str) : Str :=
  ((s.dropWhile isWsC).reverse.dropWhile isWsC).reverse

/-- JS String.prototype.startsWith. -/
def jsStartsWith (s pre : Str) : Bool :=
  pre.isPrefixOf s

/-- JS String.prototype.split(sep) for a single-character separator string:
no run collapsing, empty fields kept, always at least one field. -/
def jsSplitChar (sep : Char) : Str → List Str
  | [] => [[]]
  | c :: rest =>
    if c = sep then
      [] :: jsSplitChar sep rest
    else
      match jsSplitChar sep rest with
      | [] => [[c]]
      | h :: t => (c :: h) :: t

/-- text.split(way of a single space).length, as used for word_count:
split on a single space without collapsing runs. -/
def countWords (s : Str) : Nat :=
  (jsSplitChar ' ' s).length

/-- ASCII lower-casing, as applied by a case-insensitive regex or SQL LIKE. -/
def lowerC (c : Char) : Char :=
  if 'A' ≤ c ∧ c ≤ 'Z' then Char.ofNat (c.toNat + 32) else c

/-- Lower-case a whole string (ASCII only). -/
def lowerStr (s : Str) : Str := s.map lowerC

/-- sanitizeFilename: replace every character outside [a-zA-Z0-9.-] by an
underscore and truncate to 100 characters. -/
def sanitizeFilename (s : Str) : Str :=
  (s.map (fun c => if c.isAlphanum || c = '.' || c = '-' then c else '_')).take 100

/-- Decimal digit test. -/
def isDigitC (c : Char) : Bool := '0' ≤ c ∧ c ≤ '9'

/-- Hexadecimal digit test. -/
def isHexC (c : Char) : Bool :=
  isDigitC c || ('a' ≤ c ∧ c ≤ 'f') || ('A' ≤ c ∧ c ≤ 'F')

/-- Value of one decimal digit. -/
def digitVal (c : Char) : Nat := c.toNat - 48

/-- Value of one hexadecimal digit. -/
def hexVal (c : Char) : Nat :=
  if 'a' ≤ c ∧ c ≤ 'f' then c.toNat - 87
  else if 'A' ≤ c ∧ c ≤ 'F' then c.toNat - 55
  else digitVal c

/-- Decimal digit string to Nat. -/
def digitsToNat (ds : Str) : Nat :=
  ds.foldl (fun n c => 10 * n + digitVal c) 0

/-- Hexadecimal digit string to Nat. -/
def hexToNat (ds : Str) : Nat :=
  ds.foldl (fun n c => 16 * n + hexVal c) 0

/-- JS parseInt(x) with the argument coming from url.searchParams.get, so
either null (none, which JS coerces to the digit-free string null, hence NaN)
or a string: skip leading whitespace, read an optional sign, then either a
0x/0X-led run of hex digits or a run of decimal digits, ignoring trailing
garbage; none (NaN) when no digit is found. -/
def jsParseInt (o : Option Str) : Option Int :=
  match o with
  | none => none
  | some s =>
    let s1 := s.dropWhile isWsC
    let sgn : Int := match s1 with
      | '-' :: _ => -1
      | _ => 1
    let s2 : Str := match s1 with
      | '-' :: r => r
      | '+' :: r => r
      | r => r
    match s2 with
    | '0' :: 'x' :: r =>
      let ds := r.takeWhile isHexC
      if ds = [] then none else some (sgn * hexToNat ds)
    | '0' :: 'X' :: r =>
      let ds := r.takeWhile isHexC
      if ds = [] then none else some (sgn * hexToNat ds)
    | r =>
      let ds := r.takeWhile isDigitC
      if ds = [] then none else some (sgn * digitsToNat ds)

/-- JS parseFloat(x), for null-or-string input as above: skip leading
whitespace, optional sign, decimal digits with an optional fractional part (at
least one digit on one of the two sides), optional well-formed exponent,
trailing garbage ignored; none when no number can be read.  (The string
Infinity, which JS parseFloat maps to the infinite value, has no rational
counterpart and is modelled as none; no verified property exercises it.) -/
def jsParseFloat (o : Option Str) : Option Rat :=
  match o with
  | none => none
  | some s =>
    let s1 := s.dropWhile isWsC
    let sgn : Rat := match s1 with
      | '-' :: _ => -1
      | _ => 1
    let s2 : Str := match s1 with
      | '-' :: r => r
      | '+' :: r => r
      | r => r
    let ipart := s2.takeWhile isDigitC
    let s3 := s2.drop ipart.length
    let fpart : Str := match s3 with
      | '.' :: r => r.takeWhile isDigitC
      | _ => []
    let s4 : Str := match s3 with
      | '.' :: r => r.dropWhile isDigitC
      | r => r
    if ipart = [] ∧ fpart = [] then none
    else
      let mant : Rat :=
        (digitsToNat ipart : Rat) + (digitsToNat fpart : Rat) / ((10 : Rat) ^ fpart.length)
      let ex : Int := match s4 with
        | 'e' :: r => jsExpoPart r
        | 'E' :: r => jsExpoPart r
        | _ => 0
      some (sgn * mant * (10 : Rat) ^ ex)
where
  /-- Exponent part after the e: optional sign then digits; an exponent with
  no digits is trailing garbage, contributing 0. -/
  jsExpoPart (r : Str) : Int :=
    let sgn : Int := match r with
      | '-' :: _ => -1
      | _ => 1
    let r2 : Str := match r with
      | '-' :: t => t
      | '+' :: t => t
      | t => t
    let ds := r2.takeWhile isDigitC
    if ds = [] then 0 else sgn * digitsToNat ds

/-- JSON documents, as produced by JSON.parse (numbers as rationals). -/
inductive Json where
  | null : Json
  | bool (b : Bool) : Json
  | num (q : Rat) : Json
  | str (s : Str) : Json
  | arr (elems : List Json) : Json
  | obj (fields : List (Str × Json)) : Json

/-- JSON whitespace. -/
def isJWs (c : Char) : Bool := c = ' ' || c = '\t' || c = '\n' || c = '\r'

/-- Decoding of a single-character JSON string escape. -/
def escChar (e : Char) : Option Char :=
  match e with
  | '"' => some '"'
  | '\\' => some '\\'
  | '/' => some '/'
  | 'b' => some '\x08'
  | 'f' => some '\x0c'
  | 'n' => some '\n'
  | 'r' => some '\r'
  | 't' => some '\t'
  | _ => none

/-- Parse the body of a JSON string literal after the opening quote, returning
the decoded characters and the remainder after the closing quote.  (A \u
escape whose code is an invalid scalar value decodes through Char.ofNat to the
NUL character; no verified property exercises that corner.) -/
def parseJStr : Str → Option (Str × Str)
  | [] => none
  | '"' :: rest => some ([], rest)
  | '\\' :: 'u' :: h1 :: h2 :: h3 :: h4 :: r =>
    if isHexC h1 ∧ isHexC h2 ∧ isHexC h3 ∧ isHexC h4 then
      (parseJStr r).map (fun p => (Char.ofNat (hexToNat [h1, h2, h3, h4]) :: p.1, p.2))
    else none
  | '\\' :: e :: r =>
    match escChar e with
    | none => none
    | some ch => (parseJStr r).map (fun p => (ch :: p.1, p.2))
  | c :: rest =>
    if c.toNat < 32 then none
    else (parseJStr rest).map (fun p => (c :: p.1, p.2))

/-- Exponent part of a JSON number, after the e: an optional sign then at
least one digit. -/
def parseJExpo (r : Str) : Option (Int × Str) :=
  let sgn : Int := match r with
    | '-' :: _ => -1
    | _ => 1
  let r2 : Str := match r with
    | '-' :: t => t
    | '+' :: t => t
    | t => t
  let ds := r2.takeWhile isDigitC
  if ds = [] then none else some (sgn * digitsToNat ds, r2.drop ds.length)

/-- JSON number grammar: an optional minus, an integer part without a leading
zero, an optional fractional part with at least one digit, and an optional
exponent. -/
def parseJNum (s : Str) : Option (Rat × Str) :=
  let sgn : Rat := match s with
    | '-' :: _ => -1
    | _ => 1
  let s1 : Str := match s with
    | '-' :: r => r
    | r => r
  let ds := s1.takeWhile isDigitC
  if ds = [] then none
  else if 1 < ds.length ∧ ds.headD '0' = '0' then none
  else
    let s2 := s1.drop ds.length
    let frac : Option (Str × Str) :=
      match s2 with
      | '.' :: r =>
        let fs := r.takeWhile isDigitC
        if fs = [] then none else some (fs, r.drop fs.length)
      | r => some ([], r)
    match frac with
    | none => none
    | some (fs, s3) =>
      let expo : Option (Int × Str) :=
        match s3 with
        | 'e' :: r => parseJExpo r
        | 'E' :: r => parseJExpo r
        | r => some (0, r)
      match expo with
      | none => none
      | some (ex, s4) =>
        some (sgn * ((digitsToNat ds : Rat) + (digitsToNat fs : Rat) / (10 : Rat) ^ fs.length)
                * (10 : Rat) ^ ex, s4)

mutual

/-- Parse one JSON value at the head of the input, leading whitespace allowed,
returning it with the unconsumed remainder. -/
def parseJVal : Nat → Str → Option (Json × Str)
  | 0, _ => none
  | fuel + 1, s =>
    match s.dropWhile isJWs with
    | '{' :: r =>
      match r.dropWhile isJWs with
      | '}' :: r2 => some (.obj [], r2)
      | _ =>
        match parseJMembers fuel r with
        | none => none
        | some (ms, r2) => some (.obj ms, r2)
    | '[' :: r =>
      match r.dropWhile isJWs with
      | ']' :: r2 => some (.arr [], r2)
      | _ =>
        match parseJElems fuel r with
        | none => none
        | some (vs, r2) => some (.arr vs, r2)
    | '"' :: r => (parseJStr r).map (fun p => (.str p.1, p.2))
    | 't' :: 'r' :: 'u' :: 'e' :: r => some (.bool true, r)
    | 'f' :: 'a' :: 'l' :: 's' :: 'e' :: r => some (.bool false, r)
    | 'n' :: 'u' :: 'l' :: 'l' :: r => some (.null, r)
    | s1 => (parseJNum s1).map (fun p => (.num p.1, p.2))

/-- Parse the members of a JSON object after the opening brace (the non-empty
case), including the closing brace. -/
def parseJMembers : Nat → Str → Option (List (Str × Json) × Str)
  | 0, _ => none
  | fuel + 1, s =>
    match s.dropWhile isJWs with
    | '"' :: r =>
      match parseJStr r with
      | none => none
      | some (key, r2) =>
        match r2.dropWhile isJWs with
        | ':' :: r3 =>
          match parseJVal fuel r3 with
          | none => none
          | some (v, r4) =>
            match r4.dropWhile isJWs with
            | ',' :: r5 =>
              match parseJMembers fuel r5 with
              | none => none
              | some (ms, r6) => some ((key, v) :: ms, r6)
            | '}' :: r5 => some ([(key, v)], r5)
            | _ => none
        | _ => none
    | _ => none

/-- Parse the elements of a JSON array after the opening bracket (the
non-empty case), including the closing bracket. -/
def parseJElems : Nat → Str → Option (List Json × Str)
  | 0, _ => none
  | fuel + 1, s =>
    match parseJVal fuel s with
    | none => none
    | some (v, r) =>
      match r.dropWhile isJWs with
      | ',' :: r2 =>
        match parseJElems fuel r2 with
        | none => none
        | some (vs, r3) => some (v :: vs, r3)
      | ']' :: r2 => some ([v], r2)
      | _ => none

end

/-- JSON.parse: a single value with nothing but whitespace around it; none
models a thrown SyntaxError.  The fuel bound length+1 dominates the nesting
depth, every parser level consuming at least one character. -/
def jsonParse (s : Str) : Option Json :=
  match parseJVal (s.length + 1) s with
  | none => none
  | some (v, rest) => if rest.dropWhile isJWs = [] then some v else none

/-- The greedy brace regex used by parseAIResponse (an open brace, any run of
characters, a close brace): it matches from the first open brace to the last
close brace, provided the latter lies beyond the former. -/
def braceMatch (s : Str) : Option Str :=
  match s.findIdx? (fun c => c = '{'), s.reverse.findIdx? (fun c => c = '}') with
  | some i, some rj =>
    let j := s.length - 1 - rj
    if i < j then some ((s.drop i).take (j - i + 1)) else none
  | _, _ => none

/-- Digit capture of the score regex at a given position: greedy digits, one
optional dot, greedy digits. -/
def scoreDigits (t : Str) : Option Str :=
  let ds := t.takeWhile isDigitC
  if ds = [] then none
  else
    match t.drop ds.length with
    | '.' :: r => some (ds ++ '.' :: r.takeWhile isDigitC)
    | _ => some ds

/-- Case-insensitive regex search for a score token (the word score, then any
run of colons and whitespace, then a number): try every position left to
right, as the regex engine does, and return the captured number parsed by
parseFloat. -/
def scoreToken : Str → Option Rat
  | [] => none
  | s@(_ :: rest) =>
    if lowerStr (s.take 5) = ['s', 'c', 'o', 'r', 'e'] then
      match scoreDigits ((s.drop 5).dropWhile (fun c => c = ':' || isWsC c)) with
      | some cap => jsParseFloat (some cap)
      | none => scoreToken rest
    else scoreToken rest

/-- Result keys used by parseAIResponse. -/
def scoreKey : Str := "score".data

/-- Key of the reasoning field. -/
def reasoningKey : Str := "reasoning".data

/-- Key of the confidence field. -/
def confidenceKey : Str := "confidence".data

/-- Key of the parse error field. -/
def parseErrorKey : Str := "parse_error".data

/-- parseAIResponse: extract the greedy brace substring and JSON.parse it; a
parse failure lands in the catch block, which returns the default score 5.0
with confidence 0.3 (the thrown message text is not modelled); with no brace
substring at all, a score token search supplies the score (default 5.0) with
confidence 0.6. -/
def parseAIResponse (response : Str) : Json :=
  match braceMatch response with
  | some m =>
    match jsonParse m with
    | some v => v
    | none =>
      .obj [(scoreKey, .num 5), (reasoningKey, .str response),
            (confidenceKey, .num (3 / 10)), (parseErrorKey, .str [])]
  | none =>
    match scoreToken response with
    | some n =>
      .obj [(scoreKey, .num n), (reasoningKey, .str response), (confidenceKey, .num (6 / 10))]
    | none =>
      .obj [(scoreKey, .num 5), (reasoningKey, .str response), (confidenceKey, .num (6 / 10))]

/-- JS property access on a parsed JSON document (with duplicate keys the
later one wins, as with JSON.parse). -/
def jsGet (j : Json) (k : Str) : Option Json :=
  match j with
  | .obj fields => ((fields.filter (fun f => f.1 = k)).getLast?).map (fun f => f.2)
  | _ => none

/-- Numeric property access: some q exactly when the field holds a number. -/
def jsGetNum (j : Json) (k : Str) : Option Rat :=
  match jsGet j k with
  | some (.num q) => some q
  | _ => none

/-- Sentence-terminating punctuation, the class split on by chunkText. -/
def isPunctC (c : Char) : Bool := c = '.' || c = '!' || c = '?'

/-- text.split on a run of sentence punctuation: runs of the class collapse
into one separator, empty fields are kept at the ends, and the result always
has at least one field. -/
def splitPunct : Str → List Str
  | [] => [[]]
  | c :: rest =>
    if isPunctC c then
      match rest with
      | [] => [[], []]
      | c2 :: _ => if isPunctC c2 then splitPunct rest else [] :: splitPunct rest
    else
      match splitPunct rest with
      | [] => [[c]]
      | h :: t => (c :: h) :: t

/-- The separator appended by chunkText after a fragment. -/
def dotSep : Str := ['.', ' ']

/-- The accumulation loop of chunkText over the sentence fragments: close the
running chunk (trimmed) when appending the next fragment would exceed the
maximum and the running chunk is non-empty; otherwise append the fragment plus
a dot separator; flush a non-empty trimmed remainder at the end. -/
def chunkLoop (maxChunkSize : Nat) : List Str → Str → List Str → List Str
  | [], cur, acc => if trimStr cur = [] then acc else acc ++ [trimStr cur]
  | s :: rest, cur, acc =>
    if maxChunkSize < cur.length + s.length ∧ 0 < cur.length then
      chunkLoop maxChunkSize rest s (acc ++ [trimStr cur])
    else
      chunkLoop maxChunkSize rest (cur ++ s ++ dotSep) acc

/-- chunkText: split the text into sentence fragments and greedily pack them
into chunks of at most maxChunkSize characters (except that a single
over-long sentence still becomes its own chunk). -/
def chunkText (text : Str) (maxChunkSize : Nat) : List Str :=
  chunkLoop maxChunkSize (splitPunct text) [] []

/-- Rendering of the fragments a chunk accumulated after its first one: each
fragment is followed by the dot separator. -/
def renderRest (fs : List Str) : Str :=
  (fs.map (fun f => f ++ dotSep)).flatten

/-- Rendering of a grouping of the fragment sequence as chunkText emits it:
the state carries the running chunk; each later group starts with the fragment
whose arrival closed the previous chunk (that fragment enters the new chunk
bare), and the final running chunk is flushed only when its trim is
non-empty. -/
def renderGroups : Str → List (Str × List Str) → List Str
  | cur, [] => if trimStr cur = [] then [] else [trimStr cur]
  | cur, (f, fs) :: gs => trimStr cur :: renderGroups (f ++ renderRest fs) gs

/-- The fragment sequence covered by a list of later groups. -/
def groupsFlat (gs : List (Str × List Str)) : List Str :=
  (gs.map (fun p => p.1 :: p.2)).flatten

/-- JS truthiness of a nullable string: null and the empty string are falsy. -/
def jsTruthyStr (o : Option Str) : Option Str :=
  match o with
  | none => none
  | some s => if s = [] then none else some s

/-- JS x or-else d for a nullable number: null, undefined and 0 are falsy. -/
def jsOrRat (o : Option Rat) (d : Rat) : Rat :=
  match o with
  | none => d
  | some c => if c = 0 then d else c

/-- transcription_status values of the videos table. -/
inductive TStatus where
  | pending
  | processing
  | completed
  | failed
deriving DecidableEq

/-- A row of the videos table (the columns the worker reads or writes). -/
structure Video where
  id : Nat
  title : Str
  url : Option Str := none
  source_type : Option Str := none
  file_path : Option Str := none
  transcription_status : TStatus := .pending
  ai_rating_score : Option Rat := none
  content_quality_score : Option Rat := none
  research_relevance_score : Option Rat := none
  factual_accuracy_score : Option Rat := none
  tags : Option Str := none
deriving DecidableEq

/-- A row of the transcripts table. -/
structure Transcript where
  id : Nat
  video_id : Nat
  transcript_text : Str
  confidence_score : Rat := 95 / 100
  word_count : Nat := 0
  processing_time_ms : Nat := 0
deriving DecidableEq

/-- A row of the ai_analysis table (the stored analysis_result is kept as the
parsed document rather than its serialized text). -/
structure Analysis where
  id : Nat
  video_id : Nat
  analysis_type : Str
  analysis_result : Json
  confidence_score : Rat
  processing_model : Str

/-- The D1 database state visible to the verified handlers. -/
structure DB where
  videos : List Video := []
  transcripts : List Transcript := []
  analyses : List Analysis := []

/-- AUTOINCREMENT key generation for the videos table. -/
def nextVideoId (db : DB) : Nat :=
  (db.videos.map (fun v => v.id)).foldr max 0 + 1

/-- AUTOINCREMENT key generation for the transcripts table. -/
def nextTranscriptId (db : DB) : Nat :=
  (db.transcripts.map (fun t => t.id)).foldr max 0 + 1

/-- AUTOINCREMENT key generation for the ai_analysis table. -/
def nextAnalysisId (db : DB) : Nat :=
  (db.analyses.map (fun a => a.id)).foldr max 0 + 1

/-- SELECT * FROM videos WHERE id = ? ... first(). -/
def findVideo (db : DB) (videoId : Nat) : Option Video :=
  db.videos.find? (fun v => v.id = videoId)

/-- UPDATE videos SET transcription_status = ? WHERE id = ?. -/
def setStatus (db : DB) (videoId : Nat) (st : TStatus) : DB :=
  { db with
    videos := db.videos.map (fun v =>
      if v.id = videoId then { v with transcription_status := st } else v) }

/-- The transcription status of one video, when it exists. -/
def videoStatus (db : DB) (videoId : Nat) : Option TStatus :=
  (findVideo db videoId).map (fun v => v.transcription_status)

/-- Raw audio bytes fetched from storage. -/
abbrev Bytes := List Nat

/-- The locator string of a host-managed video. -/
def streamColon : Str := "stream:".data

/-- The literal locator of pre-extracted article content. -/
def extractedMarker : Str := "extracted".data

/-- Which adapter the transcription handler resolves bytes through, decided
purely by the storage locator: the stream-prefixed form goes to the video
host (with the uid taken as the second colon-separated field), everything
else to the R2 content store. -/
inductive ByteSource where
  | stream (uid : Str)
  | r2 (key : Str)
deriving DecidableEq

/-- The locator dispatch of handleTranscription. -/
def byteSource (filePath : Str) : ByteSource :=
  if jsStartsWith filePath streamColon then
    .stream ((jsSplitChar ':' filePath).getD 1 [])
  else
    .r2 filePath

/-- The speech-to-text adapter result: text plus an optional confidence. -/
structure WhisperOut where
  text : Str
  confidence : Option Rat := none

/-- External adapters consumed by handleTranscription; none models any
thrown or failed call (failed download URL fetch, missing R2 object,
adapter error). -/
structure TransEnv where
  streamDownload : Str → Option Bytes
  r2Get : Str → Option Bytes
  whisper : Bytes → Option WhisperOut

/-- Outcome of handleTranscription (error message texts are not modelled). -/
inductive TResult where
  | badRequest
  | notFound
  | failure
  | success (transcriptId : Nat) (text : Str) (wordCount : Nat)
deriving DecidableEq

/-- handleTranscription: require a truthy videoId, 404 on a missing video,
set the status to processing, resolve bytes via the adapter selected by the
locator (a null locator throws on startsWith and lands in the catch), call
the transcription adapter, insert a transcript row and set the status to
completed on success; every caught failure sets the status to failed. -/
def handleTranscription (env : TransEnv) (db : DB) (videoId : Nat) : DB × TResult :=
  if videoId = 0 then (db, .badRequest)
  else
    match findVideo db videoId with
    | none => (db, .notFound)
    | some video =>
      let db1 := setStatus db videoId .processing
      match video.file_path with
      | none => (setStatus db1 videoId .failed, .failure)
      | some filePath =>
        let bytes : Option Bytes :=
          match byteSource filePath with
          | .stream uid => env.streamDownload uid
          | .r2 key => env.r2Get key
        match bytes with
        | none => (setStatus db1 videoId .failed, .failure)
        | some audio =>
          match env.whisper audio with
          | none => (setStatus db1 videoId .failed, .failure)
          | some w =>
            let t : Transcript :=
              { id := nextTranscriptId db1
                video_id := videoId
                transcript_text := w.text
                confidence_score := jsOrRat w.confidence (95 / 100)
                word_count := countWords w.text
                processing_time_ms := 0 }
            let db2 := { db1 with transcripts := db1.transcripts ++ [t] }
            (setStatus db2 videoId .completed, .success t.id w.text (countWords w.text))

/-- SELECT t.*, v.title FROM transcripts t JOIN videos v ON t.video_id = v.id
WHERE v.id = ? ... first(): the first transcript row of the video, paired
with the video title, none when either side is missing. -/
def findTranscriptJoin (db : DB) (videoId : Nat) : Option (Transcript × Str) :=
  match findVideo db videoId with
  | none => none
  | some v =>
    (db.transcripts.find? (fun t => t.video_id = videoId)).map (fun t => (t, v.title))

/-- Analysis kind requested as quality. -/
def qualityKind : Str := "quality".data

/-- Analysis kind requested as relevance. -/
def relevanceKind : Str := "relevance".data

/-- Analysis kind requested as factual. -/
def factualKind : Str := "factual".data

/-- The default analysisTypes of the analyze route, in handler order. -/
def defaultAnalysisTypes : List Str := [qualityKind, relevanceKind, factualKind]

/-- The content-quality prompt, embedding title and transcript. -/
def qualityPrompt (title text : Str) : Str :=
  ("Analyze the following transcript for content quality. Rate from 0-10 based on clarity, coherence, information density, and overall value for scientific research. Return JSON with score and reasoning.\n\nTitle: ").data
  ++ title ++ ("\nTranscript: ").data ++ text
  ++ ("\n\nReturn format: \x7b\"score\": 8.5, \"reasoning\": \"Clear explanations, good structure...\", \"factors\": \x7b\"clarity\": 9, \"coherence\": 8, \"density\": 8\x7d\x7d").data

/-- The research-relevance prompt, embedding title and transcript. -/
def relevancePrompt (title text : Str) : Str :=
  ("Analyze this transcript for relevance to THEOPHYSICS research: quantum physics, consciousness studies, spirituality, advanced theoretical physics, prophecy, and interdisciplinary science. Rate 0-10.\n\nTitle: ").data
  ++ title ++ ("\nTranscript: ").data ++ text
  ++ ("\n\nReturn format: \x7b\"score\": 7.2, \"topics\": [\"quantum consciousness\", \"measurement problem\"], \"theophysics_factors\": \x7b\"quantum_physics\": 8, \"consciousness\": 9, \"spirituality\": 6, \"prophecy\": 4\x7d\x7d").data

/-- The factual-accuracy prompt, embedding title and transcript. -/
def factualPrompt (title text : Str) : Str :=
  ("Analyze this transcript for factual accuracy and scientific rigor. Rate 0-10 based on verifiable claims, logical consistency, and scientific validity.\n\nTitle: ").data
  ++ title ++ ("\nTranscript: ").data ++ text
  ++ ("\n\nReturn format: \x7b\"score\": 6.8, \"claims_analysis\": [\"accurate physics concepts\", \"unverified spiritual claims\"], \"accuracy_factors\": \x7b\"scientific_rigor\": 7, \"logical_consistency\": 8, \"verifiability\": 5\x7d\x7d").data

/-- The prompt used for one analysis kind. -/
def promptFor (k : Str) (title text : Str) : Str :=
  if k = qualityKind then qualityPrompt title text
  else if k = relevanceKind then relevancePrompt title text
  else factualPrompt title text

/-- The scoring adapter: a prompt in, free response text out; none models a
thrown call. -/
structure AnalyzeEnv where
  llm : Str → Option Str

/-- The kinds the analyze handler runs, in its fixed handler order, of the
requested analysisTypes. -/
def requestedKinds (analysisTypes : List Str) : List Str :=
  defaultAnalysisTypes.filter (fun k => analysisTypes.contains k)

/-- The sequential adapter calls of the analyze handler: one call per
requested kind, each response put through parseAIResponse; a thrown call
aborts the whole handler before anything is written. -/
def runAnalyses (env : AnalyzeEnv) (title text : Str) : List Str → Option (List (Str × Json))
  | [] => some []
  | k :: ks =>
    match env.llm (promptFor k title text) with
    | none => none
    | some resp =>
      match runAnalyses env title text ks with
      | none => none
      | some rest => some ((k, parseAIResponse resp) :: rest)

/-- The per-kind contribution to the average: the score field when numeric,
otherwise the falsy fallback 0.  (A truthy non-numeric score field, on which
JS addition would coerce, is outside the adapter contract and modelled as
0.) -/
def scoreOrZero (j : Json) : Rat :=
  match jsGetNum j scoreKey with
  | some q => q
  | none => 0

/-- The value written into one per-kind score column: the kind must be in
this batch and its score field numeric and non-zero (0 is falsy, so the
JS or-null turns it into null), otherwise NULL. -/
def scoreColumn (results : List (Str × Json)) (k : Str) : Option Rat :=
  match results.find? (fun p => p.1 = k) with
  | none => none
  | some p =>
    match jsGetNum p.2 scoreKey with
    | some q => if q = 0 then none else some q
    | none => none

/-- The confidence bound into an ai_analysis row: the result document's
confidence field when numeric and non-zero, else the fallback 0.8. -/
def analysisConfidence (j : Json) : Rat :=
  match jsGetNum j confidenceKey with
  | some c => if c = 0 then 8 / 10 else c
  | none => 8 / 10

/-- INSERT INTO ai_analysis for one analysed kind. -/
def insertAnalysis (db : DB) (videoId : Nat) (kind : Str) (result : Json) : DB :=
  { db with
    analyses := db.analyses ++ [{
      id := nextAnalysisId db
      video_id := videoId
      analysis_type := kind
      analysis_result := result
      confidence_score := analysisConfidence result
      processing_model := ("llama-3.1-8b-instruct").data }] }

/-- The unweighted mean over the batch; an empty batch divides zero by zero,
a NaN that reaches the database as no numeric value, modelled none. -/
def batchAverage (results : List (Str × Json)) : Option Rat :=
  if results.length = 0 then none
  else some ((results.map (fun p => scoreOrZero p.2)).sum / results.length)

/-- UPDATE videos SET ai_rating_score, content_quality_score,
research_relevance_score, factual_accuracy_score: all four columns are
written on every batch. -/
def updateScores (db : DB) (videoId : Nat) (avg : Option Rat)
    (results : List (Str × Json)) : DB :=
  { db with
    videos := db.videos.map (fun v =>
      if v.id = videoId then
        { v with
          ai_rating_score := avg
          content_quality_score := scoreColumn results qualityKind
          research_relevance_score := scoreColumn results relevanceKind
          factual_accuracy_score := scoreColumn results factualKind }
      else v) }

/-- Outcome of handleAIAnalysis. -/
inductive AResult where
  | notFound
  | failure
  | success (results : List (Str × Json)) (avg : Option Rat)

/-- Whether an analyze outcome took the success path. -/
def AResult.isSuccess : AResult → Bool
  | .success _ _ => true
  | _ => false

/-- handleAIAnalysis: 404 without a transcript row; otherwise run the scoring
adapter for each requested kind (a thrown call fails the request with nothing
written), insert one ai_analysis row per kind, and overwrite the four video
score columns from this batch alone. -/
def handleAIAnalysis (env : AnalyzeEnv) (db : DB) (videoId : Nat)
    (analysisTypes : List Str) : DB × AResult :=
  match findTranscriptJoin db videoId with
  | none => (db, .notFound)
  | some (t, title) =>
    match runAnalyses env title t.transcript_text (requestedKinds analysisTypes) with
    | none => (db, .failure)
    | some results =>
      let db1 := results.foldl (fun d p => insertAnalysis d videoId p.1 p.2) db
      let avg := batchAverage results
      (updateScores db1 videoId avg results, .success results avg)

/-- SQLite LIKE with the usual wildcards, ASCII-case-insensitively: a percent
matches any run, an underscore any one character. -/
def likeMatch : Str → Str → Bool
  | [], s => s = []
  | '%' :: ps, s =>
    likeMatch ps s ||
      (match s with
       | [] => false
       | _ :: t => likeMatch ('%' :: ps) t)
  | '_' :: ps, s =>
    (match s with
     | [] => false
     | _ :: t => likeMatch ps t)
  | p :: ps, s =>
    (match s with
     | [] => false
     | c :: t => lowerC c = lowerC p && likeMatch ps t)
termination_by p s => p.length + s.length

/-- SQL field LIKE percent-pattern-percent: NULL never matches. -/
def likeAnywhere (field : Option Str) (needle : Str) : Bool :=
  match field with
  | none => false
  | some s => likeMatch ('%' :: (needle ++ ['%'])) s

/-- SQL numeric comparison against a nullable column: NULL compares to
nothing, so the row is filtered out. -/
def sqlGeNum (o : Option Rat) (m : Rat) : Bool :=
  match o with
  | none => false
  | some x => m ≤ x

/-- The query parameters of the search route, as url.searchParams.get
returns them. -/
structure SearchParams where
  q : Option Str := none
  min_rating : Option Str := none
  limit : Option Str := none
  category : Option Str := none

/-- One result row of the search join. -/
structure SearchRow where
  video : Video
  transcript : Transcript
deriving DecidableEq

/-- parseFloat(min_rating) or-else 0: NaN is falsy, and a parsed 0 is falsy
with the same fallback 0. -/
def effMinRating (o : Option Str) : Rat :=
  (jsParseFloat o).getD 0

/-- parseInt(limit) or-else 50: NaN and 0 both fall back to 50. -/
def effLimit (o : Option Str) : Int :=
  match jsParseInt o with
  | none => 50
  | some n => if n = 0 then 50 else n

/-- FROM videos v JOIN transcripts t ON v.id = t.video_id. -/
def searchJoin (db : DB) : List SearchRow :=
  db.videos.flatMap (fun v =>
    (db.transcripts.filter (fun t => t.video_id = v.id)).map
      (fun t => { video := v, transcript := t }))

/-- The WHERE clause of the search query. -/
def searchPred (p : SearchParams) (r : SearchRow) : Bool :=
  r.video.transcription_status = TStatus.completed
  && sqlGeNum r.video.ai_rating_score (effMinRating p.min_rating)
  && (match jsTruthyStr p.q with
      | none => true
      | some q =>
        likeAnywhere (some r.video.title) q
          || likeAnywhere (some r.transcript.transcript_text) q)
  && (match jsTruthyStr p.category with
      | none => true
      | some c => likeAnywhere r.video.tags c)

/-- The ORDER BY key (rows reaching the sort always carry a score, the NULL
case having been filtered out by the WHERE clause). -/
def rowKey (r : SearchRow) : Rat :=
  r.video.ai_rating_score.getD 0

/-- The ORDER BY relation: overall score descending. -/
def rowOrd (a b : SearchRow) : Prop :=
  rowKey b ≤ rowKey a

instance : DecidableRel rowOrd :=
  fun a b => inferInstanceAs (Decidable (rowKey b ≤ rowKey a))

instance : IsTotal SearchRow rowOrd :=
  ⟨fun a b => (le_total (rowKey b) (rowKey a)).imp id id⟩

instance : IsTrans SearchRow rowOrd :=
  ⟨fun _ _ _ h1 h2 => le_trans h2 h1⟩

/-- handleSearch: filter, order by the overall score descending, and apply
the LIMIT (a negative SQLite LIMIT means no cap). -/
def handleSearch (db : DB) (p : SearchParams) : List SearchRow :=
  if effLimit p.limit < 0 then
    ((searchJoin db).filter (searchPred p)).insertionSort rowOrd
  else
    (((searchJoin db).filter (searchPred p)).insertionSort rowOrd).take
      (effLimit p.limit).toNat

/-- Outcome of the three ingest paths. -/
inductive UResult where
  | badRequest
  | created (videoId : Nat)
deriving DecidableEq

/-- The content_type value that marks pre-extracted article content. -/
def articleType : Str := "article".data

/-- handleUrlContent: reject a falsy url, insert the video with status
completed and the extracted locator for article content (pending and a NULL
locator otherwise), and store pre-extracted article text as a transcript
row. -/
def handleUrlContent (db : DB) (url title sourceType contentType
    extractedContent : Option Str) : DB × UResult :=
  match jsTruthyStr url with
  | none => (db, .badRequest)
  | some u =>
    let isArticle := contentType = some articleType
    let vid := nextVideoId db
    let v : Video :=
      { id := vid
        title := (jsTruthyStr title).getD ((sourceType.getD ("undefined").data) ++ (" content").data)
        url := some u
        source_type := sourceType
        file_path := if isArticle then some extractedMarker else none
        transcription_status := if isArticle then .completed else .pending }
    let db1 := { db with videos := db.videos ++ [v] }
    let db2 :=
      match jsTruthyStr extractedContent with
      | some content =>
        if isArticle then
          { db1 with
            transcripts := db1.transcripts ++ [{
              id := nextTranscriptId db1
              video_id := vid
              transcript_text := content
              confidence_score := 9 / 10
              word_count := countWords content
              processing_time_ms := 0 }] }
        else db1
      | none => db1
    (db2, .created vid)

/-- handleStreamUpload: record a host-managed video under its stream locator,
always pending. -/
def handleStreamUpload (db : DB) (videoUID : Str) (title : Str)
    (sourceType : Option Str) : DB × UResult :=
  let vid := nextVideoId db
  let v : Video :=
    { id := vid
      title := title
      source_type := sourceType
      file_path := some (streamColon ++ videoUID)
      transcription_status := .pending }
  ({ db with videos := db.videos ++ [v] }, .created vid)

/-- handleFileUpload: store the object under a timestamped sanitized name in
the content store (an external collaborator, not part of the database state)
and record the video row, always pending. -/
def handleFileUpload (db : DB) (fileName : Str) (title : Str)
    (sourceType : Option Str) (timestamp : Nat) : DB × UResult :=
  let ext : Str :=
    match (jsSplitChar '.' fileName).getLastD [] with
    | [] => ("mp4").data
    | e => e
  let filename := (Nat.repr timestamp).data ++ ['-'] ++ sanitizeFilename title ++ ['.'] ++ ext
  let vid := nextVideoId db
  let v : Video :=
    { id := vid
      title := title
      source_type := sourceType
      file_path := some filename
      transcription_status := .pending }
  ({ db with videos := db.videos ++ [v] }, .created vid)

/-- The most recent ai_analysis row of one kind for one video (rows are
appended in run order, so the last one is the most recent). -/
def lastAnalysisOf (db : DB) (videoId : Nat) (kind : Str) : Option Analysis :=
  (db.analyses.filter (fun a => a.video_id = videoId && a.analysis_type = kind)).getLast?

/-- Whether a transcription outcome took the success path. -/
def TResult.isSuccess : TResult → Bool
  | .success _ _ _ => true
  | _ => false

/- Concrete database states, adapter environments and rows used to evaluate
the verified properties on closed inputs. -/

/-- An uploaded, not yet transcribed video. -/
def vT : Video := { id := 1, title := ("Quantum Talk").data, file_path := some ("vid.mp4").data }

/-- A database holding only vT. -/
def dbT : DB := { videos := [vT] }

/-- Adapters for a successful R2 transcription run. -/
def envT : TransEnv :=
  { streamDownload := fun _ => none
    r2Get := fun _ => some [1, 2, 3]
    whisper := fun _ => some { text := ("Hello world").data } }

/-- A completed article video carrying the literal extracted locator. -/
def vX : Video :=
  { id := 1, title := ("Art").data, file_path := some extractedMarker
    transcription_status := .completed }

/-- Its pre-extracted transcript row. -/
def tX : Transcript := { id := 1, video_id := 1, transcript_text := ("Body").data }

/-- A database holding the extracted-locator video and its transcript. -/
def dbX : DB := { videos := [vX], transcripts := [tX] }

/-- Adapters on which every byte resolution and transcription call fails. -/
def envFail : TransEnv :=
  { streamDownload := fun _ => none, r2Get := fun _ => none, whisper := fun _ => none }

/-- A transcribed video whose research relevance was previously scored 8. -/
def vA : Video :=
  { id := 1, title := ['T'], transcription_status := .completed
    research_relevance_score := some 8 }

/-- Its transcript row. -/
def tA : Transcript := { id := 1, video_id := 1, transcript_text := ("hello").data }

/-- A database holding vA and its transcript. -/
def dbA : DB := { videos := [vA], transcripts := [tA] }

/-- A scoring adapter always answering with a JSON score of 9. -/
def envScore9 : AnalyzeEnv := { llm := fun _ => some ("\x7b\"score\": 9\x7d").data }

/-- A scoring adapter always answering with a JSON score of 8. -/
def envScore8 : AnalyzeEnv := { llm := fun _ => some ("\x7b\"score\": 8\x7d").data }

/-- A scoring adapter always answering with a JSON score of 6. -/
def envScore6 : AnalyzeEnv := { llm := fun _ => some ("\x7b\"score\": 6\x7d").data }

/-- The analysis batch produced by envScore9 for a quality-only request. -/
def rsQuality9 : List (Str × Json) := [(qualityKind, Json.obj [(scoreKey, Json.num 9)])]

/-- The batch produced by envScore9 for a quality-and-relevance request. -/
def rsQR9 : List (Str × Json) :=
  [(qualityKind, Json.obj [(scoreKey, Json.num 9)]),
   (relevanceKind, Json.obj [(scoreKey, Json.num 9)])]

/-- vA after a quality-only batch scored 9. -/
def vA2 : Video :=
  { id := 1, title := ['T'], transcription_status := .completed
    ai_rating_score := some 9, content_quality_score := some 9 }

/-- vA after a quality-and-relevance batch both scored 9. -/
def vA3 : Video :=
  { id := 1, title := ['T'], transcription_status := .completed
    ai_rating_score := some 9, content_quality_score := some 9
    research_relevance_score := some 9 }

/-- A completed, transcribed and scored video. -/
def v4 : Video :=
  { id := 1, title := ("Quantum Talk").data, transcription_status := .completed
    ai_rating_score := some 8 }

/-- Its transcript row. -/
def t4 : Transcript := { id := 1, video_id := 1, transcript_text := ("Hello world").data }

/-- A database holding v4 and its transcript. -/
def db4 : DB := { videos := [v4], transcripts := [t4] }

/-- The join row of v4 with its transcript. -/
def r4 : SearchRow := { video := v4, transcript := t4 }

/-- A search request with every query parameter absent. -/
def noParams : SearchParams := {}

/-- A completed, transcribed video that was never analysed (NULL score). -/
def vN : Video := { id := 1, title := ("NoScore").data, transcription_status := .completed }

/-- Its transcript row. -/
def tN : Transcript := { id := 1, video_id := 1, transcript_text := ("text").data }

/-- A database holding the never-analysed completed video. -/
def dbN : DB := { videos := [vN], transcripts := [tN] }

/-- A video without any transcript row. -/
def vOnly : Video := { id := 1, title := ['V'] }

/-- A database holding a video but no transcripts. -/
def dbNoTranscript : DB := { videos := [vOnly] }

/-- A scoring adapter whose every call throws. -/
def envLlmNone : AnalyzeEnv := { llm := fun _ => none }

/-- The empty database. -/
def emptyDB : DB := {}

/-- A host-managed video carrying a stream locator. -/
def vS : Video := { id := 1, title := ['S'], file_path := some ("stream:abc").data }

/-- A database holding the stream-locator video. -/
def dbS : DB := { videos := [vS] }

/- Supporting lemmas. -/

/-- Mapping an id-preserving update over the rows commutes with looking a row
up by id. -/
lemma find?_id_map_ite (l : List Video) (videoId : Nat) (g : Video → Video)
    (hg : ∀ v, (g v).id = v.id) :
    (l.map (fun v => if v.id = videoId then g v else v)).find? (fun v => v.id = videoId)
      = (l.find? (fun v => v.id = videoId)).map g := by
  induction l with
  | nil => rfl
  | cons w l ih =>
    by_cases hw : w.id = videoId
    · simp [List.find?_cons, hw, hg]
    · simp [List.find?_cons, hw, ih]

/-- Looking up the updated video after setStatus. -/
lemma findVideo_setStatus (db : DB) (videoId : Nat) (st : TStatus) :
    findVideo (setStatus db videoId st) videoId
      = (findVideo db videoId).map (fun v => { v with transcription_status := st }) :=
  find?_id_map_ite db.videos videoId
    (fun v => { v with transcription_status := st }) (fun v => rfl)

/-- The status read back after setStatus, when the video exists. -/
lemma videoStatus_setStatus (db : DB) (videoId : Nat) (st : TStatus) (v : Video)
    (hv : findVideo db videoId = some v) :
    videoStatus (setStatus db videoId st) videoId = some st := by
  simp [videoStatus, findVideo_setStatus, hv]

/-- Looking up the updated video after updateScores. -/
lemma findVideo_updateScores (db : DB) (videoId : Nat) (avg : Option Rat)
    (results : List (Str × Json)) :
    findVideo (updateScores db videoId avg results) videoId
      = (findVideo db videoId).map (fun v =>
          { v with
            ai_rating_score := avg
            content_quality_score := scoreColumn results qualityKind
            research_relevance_score := scoreColumn results relevanceKind
            factual_accuracy_score := scoreColumn results factualKind }) :=
  find?_id_map_ite db.videos videoId
    (fun v =>
      { v with
        ai_rating_score := avg
        content_quality_score := scoreColumn results qualityKind
        research_relevance_score := scoreColumn results relevanceKind
        factual_accuracy_score := scoreColumn results factualKind })
    (fun v => rfl)

/-- Inserting analysis rows leaves the videos table unchanged. -/
lemma foldl_insertAnalysis_videos (rs : List (Str × Json)) (db : DB) (videoId : Nat) :
    (rs.foldl (fun d p => insertAnalysis d videoId p.1 p.2) db).videos = db.videos := by
  induction rs generalizing db with
  | nil => rfl
  | cons p rs ih =>
    simp only [List.foldl_cons]
    rw [ih]
    rfl

/-- A successful batch contains exactly the requested kinds, in order. -/
lemma runAnalyses_kinds (env : AnalyzeEnv) (title text : Str) :
    ∀ (ks : List Str) (rs : List (Str × Json)),
      runAnalyses env title text ks = some rs → rs.map (fun p => p.1) = ks := by
  intro ks
  induction ks with
  | nil => intro rs h; simp [runAnalyses] at h; simp [h.symm]
  | cons k ks ih =>
    intro rs h
    simp only [runAnalyses] at h
    cases hl : env.llm (promptFor k title text) with
    | none => rw [hl] at h; exact absurd h (by simp)
    | some resp =>
      rw [hl] at h
      cases hr : runAnalyses env title text ks with
      | none => rw [hr] at h; exact absurd h (by simp)
      | some rest =>
        rw [hr] at h
        simp only [Option.some_inj] at h
        subst h
        simp [ih rest hr]

/-- Anatomy of a successful analyze request. -/
lemma handleAIAnalysis_success (env : AnalyzeEnv) (db : DB) (videoId : Nat)
    (analysisTypes : List Str) (db2 : DB) (rs : List (Str × Json)) (avg : Option Rat)
    (h : handleAIAnalysis env db videoId analysisTypes = (db2, .success rs avg)) :
    ∃ t title, findTranscriptJoin db videoId = some (t, title) ∧
      runAnalyses env title t.transcript_text (requestedKinds analysisTypes) = some rs ∧
      avg = batchAverage rs ∧
      db2 = updateScores (rs.foldl (fun d p => insertAnalysis d videoId p.1 p.2) db)
              videoId avg rs := by
  unfold handleAIAnalysis at h
  cases hj : findTranscriptJoin db videoId with
  | none => rw [hj] at h; exact absurd h (by simp)
  | some pr =>
    obtain ⟨t, title⟩ := pr
    rw [hj] at h
    dsimp only at h
    cases hr : runAnalyses env title t.transcript_text (requestedKinds analysisTypes) with
    | none => rw [hr] at h; exact absurd h (by simp)
    | some results =>
      rw [hr] at h
      have h1 := congrArg Prod.fst h
      have h2 := congrArg Prod.snd h
      simp only at h1 h2
      cases h2
      exact ⟨t, title, rfl, hr, rfl, h1.symm⟩

/-- Every member of a list is bounded by the running maximum. -/
lemma mem_le_foldr_max (l : List Nat) (x : Nat) (hx : x ∈ l) : x ≤ l.foldr max 0 := by
  induction l with
  | nil => cases hx
  | cons y l ih =>
    rcases List.mem_cons.mp hx with h | h
    · simp [h, le_max_left]
    · exact le_trans (ih h) (le_max_right _ _)

/-- Appending a row whose id is fresh for the whole list makes the lookup of
that id find it. -/
lemma find?_append_fresh (l : List Video) (v : Video) (hv : ∀ w ∈ l, w.id ≠ v.id) :
    (l ++ [v]).find? (fun w => w.id = v.id) = some v := by
  induction l with
  | nil => simp [List.find?_cons]
  | cons w l ih =>
    have hw : ¬ w.id = v.id := hv w (by simp)
    simp only [List.cons_append, List.find?_cons, hw]
    simpa [hw] using ih (fun u hu => hv u (by simp [hu]))

/-- A freshly generated video id finds the appended row. -/
lemma findVideo_append_new (db db2 : DB) (v : Video)
    (hdb : db2.videos = db.videos ++ [v]) (hid : v.id = nextVideoId db) :
    findVideo db2 (nextVideoId db) = some v := by
  unfold findVideo
  rw [hdb, ← hid]
  refine find?_append_fresh _ _ (fun w hw => ?_)
  rw [hid]
  have hle : w.id ≤ (db.videos.map (fun v => v.id)).foldr max 0 :=
    mem_le_foldr_max (db.videos.map (fun v => v.id)) w.id
      (by exact List.mem_map_of_mem _ hw)
  simp only [nextVideoId]
  omega

/-- The video row appended by a URL-content ingest. -/
lemma handleUrlContent_videos (db : DB) (url title st ct ec : Option Str) (u : Str)
    (hu : jsTruthyStr url = some u) :
    (handleUrlContent db url title st ct ec).1.videos = db.videos ++
      [{ id := nextVideoId db
         title := (jsTruthyStr title).getD ((st.getD ("undefined").data) ++ (" content").data)
         url := some u
         source_type := st
         file_path := if ct = some articleType then some extractedMarker else none
         transcription_status := if ct = some articleType then .completed else .pending }] := by
  unfold handleUrlContent
  rw [hu]
  dsimp only
  cases hec : jsTruthyStr ec with
  | none => rfl
  | some content =>
    by_cases hart : ct = some articleType
    · simp only [if_pos hart]
    · simp only [if_neg hart]

/-- Transcribe on an existing video takes exactly one of two shapes: the
caught-failure shape (status failed, nothing inserted) or the success shape
(one transcript row appended, status completed). -/
lemma handleTranscription_shape (env : TransEnv) (db : DB) (videoId : Nat) (v : Video)
    (h0 : videoId ≠ 0) (hv : findVideo db videoId = some v) :
    handleTranscription env db videoId
        = (setStatus (setStatus db videoId .processing) videoId .failed, .failure) ∨
    (∃ w : WhisperOut, handleTranscription env db videoId
        = (setStatus
            { setStatus db videoId .processing with
              transcripts := (setStatus db videoId .processing).transcripts ++
                [{ id := nextTranscriptId (setStatus db videoId .processing)
                   video_id := videoId
                   transcript_text := w.text
                   confidence_score := jsOrRat w.confidence (95 / 100)
                   word_count := countWords w.text
                   processing_time_ms := 0 }] }
            videoId .completed,
           .success (nextTranscriptId (setStatus db videoId .processing)) w.text
             (countWords w.text))) := by
  unfold handleTranscription
  rw [if_neg h0, hv]
  dsimp only
  cases v.file_path with
  | none => exact Or.inl rfl
  | some fp =>
    dsimp only
    cases byteSource fp with
    | stream uid =>
      dsimp only
      cases env.streamDownload uid with
      | none => exact Or.inl rfl
      | some audio =>
        dsimp only
        cases env.whisper audio with
        | none => exact Or.inl rfl
        | some w => exact Or.inr ⟨w, rfl⟩
    | r2 key =>
      dsimp only
      cases env.r2Get key with
      | none => exact Or.inl rfl
      | some audio =>
        dsimp only
        cases env.whisper audio with
        | none => exact Or.inl rfl
        | some w => exact Or.inr ⟨w, rfl⟩

/-- C9: for every video that has no Transcript row, Analyze returns the
not-found error and leaves the database state unchanged: no Analysis Result
row is inserted and no Video score column is modified. -/
theorem analyze_requires_transcript (env : AnalyzeEnv) (db : DB) (videoId : Nat)
    (analysisTypes : List Str)
    (h : ∀ t ∈ db.transcripts, t.video_id ≠ videoId) :
    handleAIAnalysis env db videoId analysisTypes = (db, .notFound) := by
  have hj : findTranscriptJoin db videoId = none := by
    unfold findTranscriptJoin
    cases hv : findVideo db videoId with
    | none => rfl
    | some v =>
      have hn : db.transcripts.find? (fun t => t.video_id = videoId) = none :=
        List.find?_eq_none.mpr (fun t ht => by simp [h t ht])
      simp [hn]
  simp [handleAIAnalysis, hj]

/-- Witness for C9: analyze against a database holding a video but no
transcript row is a pure 404. -/
theorem analyze_requires_transcript_witness :
    (∀ t ∈ dbNoTranscript.transcripts, t.video_id ≠ 1) ∧
    handleAIAnalysis envLlmNone dbNoTranscript 1 defaultAnalysisTypes
      = (dbNoTranscript, .notFound) :=
  ⟨by decide,
   analyze_requires_transcript envLlmNone dbNoTranscript 1 defaultAnalysisTypes (by decide)⟩

/-- C10: a limit query parameter that is absent, non-numeric or parses to 0 is
replaced by 50 (an empty cap is unobtainable), and an absent or non-numeric
min_rating is replaced by 0 before filtering. -/
theorem search_param_defaults :
    effLimit none = 50 ∧
    (∀ s, jsParseInt (some s) = none → effLimit (some s) = 50) ∧
    (∀ s, jsParseInt (some s) = some 0 → effLimit (some s) = 50) ∧
    (∀ o, effLimit o ≠ 0) ∧
    effMinRating none = 0 ∧
    (∀ s, jsParseFloat (some s) = none → effMinRating (some s) = 0) := by
  refine ⟨rfl, ?_, ?_, ?_, rfl, ?_⟩
  · intro s h; simp [effLimit, h]
  · intro s h; simp [effLimit, h]
  · intro o
    cases h : jsParseInt o with
    | none => simp [effLimit, h]
    | some n => by_cases hn : n = 0 <;> simp [effLimit, h, hn]
  · intro s h; simp [effMinRating, h]

/-- Witness for C10: concrete parameter strings exercising each fallback. -/
theorem search_param_defaults_witness :
    (jsParseInt (some ("abc").data) = none ∧ effLimit (some ("abc").data) = 50) ∧
    (jsParseInt (some ("0").data) = some 0 ∧ effLimit (some ("0").data) = 50) ∧
    (jsParseFloat (some ("xyz").data) = none ∧ effMinRating (some ("xyz").data) = 0) :=
  ⟨⟨by decide, search_param_defaults.2.1 ("abc").data (by decide)⟩,
   ⟨by decide, search_param_defaults.2.2.1 ("0").data (by decide)⟩,
   ⟨by decide, search_param_defaults.2.2.2.2.2 ("xyz").data (by decide)⟩⟩

/-- C3 (amended): a direct file upload and a host-managed Stream finalization
create the new Video in pending; a URL-content ingest creates it in pending
except when content_type is article, in which case the video is created
already completed (with the extracted locator). -/
theorem ingest_initial_status :
    (∀ (db : DB) (uid title : Str) (st : Option Str),
      videoStatus (handleStreamUpload db uid title st).1 (nextVideoId db)
        = some TStatus.pending) ∧
    (∀ (db : DB) (fn title : Str) (st : Option Str) (ts : Nat),
      videoStatus (handleFileUpload db fn title st ts).1 (nextVideoId db)
        = some TStatus.pending) ∧
    (∀ (db : DB) (url title st ct ec : Option Str) (u : Str),
      jsTruthyStr url = some u → ct ≠ some articleType →
      videoStatus (handleUrlContent db url title st ct ec).1 (nextVideoId db)
        = some TStatus.pending) ∧
    (∀ (db : DB) (url title st ec : Option Str) (u : Str),
      jsTruthyStr url = some u →
      videoStatus (handleUrlContent db url title st (some articleType) ec).1 (nextVideoId db)
        = some TStatus.completed) := by
  refine ⟨?_, ?_, ?_, ?_⟩
  · intro db uid title st
    have h := findVideo_append_new db (handleStreamUpload db uid title st).1
      { id := nextVideoId db, title := title, source_type := st
        file_path := some (streamColon ++ uid), transcription_status := .pending }
      rfl rfl
    simp [videoStatus, h]
  · intro db fn title st ts
    have h := findVideo_append_new db (handleFileUpload db fn title st ts).1
      { id := nextVideoId db, title := title, source_type := st
        file_path := some ((Nat.repr ts).data ++ ['-'] ++ sanitizeFilename title ++ ['.'] ++
          (match (jsSplitChar '.' fn).getLastD [] with
           | [] => ("mp4").data
           | e => e))
        transcription_status := .pending }
      rfl rfl
    simp [videoStatus, h]
  · intro db url title st ct ec u hu hct
    have h := findVideo_append_new db (handleUrlContent db url title st ct ec).1 _
      (handleUrlContent_videos db url title st ct ec u hu) rfl
    simp [videoStatus, h, if_neg hct]
  · intro db url title st ec u hu
    have h := findVideo_append_new db (handleUrlContent db url title st (some articleType) ec).1 _
      (handleUrlContent_videos db url title st (some articleType) ec u hu) rfl
    simp [videoStatus, h]

/-- Counterexample to C3 as stated: ingesting URL content with content_type
article creates the video with status completed, not pending. -/
theorem ingest_article_not_pending :
    (handleUrlContent emptyDB (some ("http://x").data) none (some ("research").data)
        (some articleType) (some ("Body text").data)).2 = .created 1 ∧
    videoStatus (handleUrlContent emptyDB (some ("http://x").data) none
        (some ("research").data) (some articleType) (some ("Body text").data)).1 1
      = some TStatus.completed ∧
    TStatus.completed ≠ TStatus.pending := by
  decide

/-- Witness for C3 (amended): the four ingest paths on the empty database. -/
theorem ingest_initial_status_witness :
    videoStatus (handleStreamUpload emptyDB ("abc").data ("T").data none).1
      (nextVideoId emptyDB) = some TStatus.pending ∧
    videoStatus (handleFileUpload emptyDB ("f.mp4").data ("T").data none 0).1
      (nextVideoId emptyDB) = some TStatus.pending ∧
    videoStatus (handleUrlContent emptyDB (some ("http://y").data) none none none none).1
      (nextVideoId emptyDB) = some TStatus.pending ∧
    videoStatus (handleUrlContent emptyDB (some ("http://z").data) none none
      (some articleType) none).1 (nextVideoId emptyDB) = some TStatus.completed :=
  ⟨ingest_initial_status.1 emptyDB ("abc").data ("T").data none,
   ingest_initial_status.2.1 emptyDB ("f.mp4").data ("T").data none 0,
   ingest_initial_status.2.2.1 emptyDB (some ("http://y").data) none none none none
     ("http://y").data (by decide) (by decide),
   ingest_initial_status.2.2.2 emptyDB (some ("http://z").data) none none none
     ("http://z").data (by decide)⟩

/-- The chunk accumulation loop emits exactly a rendering of some grouping of
its remaining fragments: the first group extends the running chunk, and each
later group opens with the fragment whose arrival closed the previous
chunk. -/
lemma chunkLoop_groups (maxChunkSize : Nat) :
    ∀ (frags : List Str) (cur : Str) (acc : List Str),
      ∃ g1 gs, frags = g1 ++ groupsFlat gs ∧
        chunkLoop maxChunkSize frags cur acc
          = acc ++ renderGroups (cur ++ renderRest g1) gs := by
  intro frags
  induction frags with
  | nil =>
    intro cur acc
    refine ⟨[], [], by simp [groupsFlat], ?_⟩
    simp only [chunkLoop, renderGroups, renderRest, List.map_nil, List.flatten_nil,
      List.append_nil]
    split
    · simp
    · rfl
  | cons s rest ih =>
    intro cur acc
    by_cases hc : maxChunkSize < cur.length + s.length ∧ 0 < cur.length
    · obtain ⟨g1x, gsx, hfr, hout⟩ := ih s (acc ++ [trimStr cur])
      refine ⟨[], (s, g1x) :: gsx, ?_, ?_⟩
      · simp [groupsFlat, hfr]
      · simp only [chunkLoop, if_pos hc, hout, renderGroups, renderRest, List.map_nil,
          List.flatten_nil, List.append_nil, List.append_assoc, List.singleton_append]
    · obtain ⟨g1x, gsx, hfr, hout⟩ := ih (cur ++ s ++ dotSep) acc
      refine ⟨s :: g1x, gsx, by simp [hfr], ?_⟩
      simp only [chunkLoop, if_neg hc, renderRest, List.map_cons, List.flatten_cons,
        List.append_assoc]
      simpa [renderRest, List.append_assoc] using hout

/-- C6: for every text and positive maximum chunk length, the chunks are a
rendering of a grouping of the sentence-fragment sequence of the text: the
groups concatenate back to exactly the fragments of splitPunct (so chunk
boundaries fall only between fragments), and each chunk is its group's
fragments joined with the inserted dot separators, up to the final trim. -/
theorem chunkText_fragment_grouping (text : Str) (maxChunkSize : Nat)
    (h : 0 < maxChunkSize) :
    ∃ g1 gs, splitPunct text = g1 ++ groupsFlat gs ∧
      chunkText text maxChunkSize = renderGroups (renderRest g1) gs := by
  obtain ⟨g1, gs, h1, h2⟩ := chunkLoop_groups maxChunkSize (splitPunct text) [] []
  refine ⟨g1, gs, h1, ?_⟩
  simpa [chunkText] using h2

/-- Witness for C6: the grouping exists for a concrete two-sentence text. -/
theorem chunkText_fragment_grouping_witness :
    0 < 1000 ∧
    ∃ g1 gs, splitPunct ("Hi. Bye").data = g1 ++ groupsFlat gs ∧
      chunkText ("Hi. Bye").data 1000 = renderGroups (renderRest g1) gs :=
  ⟨by decide, chunkText_fragment_grouping ("Hi. Bye").data 1000 (by decide)⟩

/-- A passing SQL score comparison means the column is non-NULL and at least
the bound. -/
lemma sqlGeNum_true {o : Option Rat} {m : Rat} (h : sqlGeNum o m = true) :
    ∃ x, o = some x ∧ m ≤ x := by
  cases o with
  | none => simp [sqlGeNum] at h
  | some x => exact ⟨x, rfl, by simpa [sqlGeNum] using h⟩

/-- Membership in the search join means a matching video-transcript pair. -/
lemma mem_searchJoin {db : DB} {r : SearchRow} (h : r ∈ searchJoin db) :
    r.video ∈ db.videos ∧ r.transcript ∈ db.transcripts ∧
      r.transcript.video_id = r.video.id := by
  simp only [searchJoin, List.mem_flatMap, List.mem_map, List.mem_filter] at h
  obtain ⟨v, hv, t, ⟨ht, hid⟩, heq⟩ := h
  subst heq
  exact ⟨hv, ht, of_decide_eq_true hid⟩

/-- C4 (amended): search returns exactly the completed, transcribed videos
whose overall score is non-NULL and at least minRating (with the default
minRating 0 a completed video with a NULL score is still excluded), narrowed
by the optional filters, ordered by the overall score descending and capped
at the effective limit; when the matches fit under the cap none is dropped. -/
theorem search_results_characterization (db : DB) (p : SearchParams) :
    (∀ r ∈ handleSearch db p,
       r.video ∈ db.videos ∧ r.transcript ∈ db.transcripts ∧
       r.transcript.video_id = r.video.id ∧
       r.video.transcription_status = TStatus.completed ∧
       (∃ x, r.video.ai_rating_score = some x ∧ effMinRating p.min_rating ≤ x) ∧
       searchPred p r = true) ∧
    List.Pairwise rowOrd (handleSearch db p) ∧
    (0 ≤ effLimit p.limit →
      (handleSearch db p).length ≤ (effLimit p.limit).toNat) ∧
    (∀ r ∈ searchJoin db, searchPred p r = true →
      (effLimit p.limit < 0 ∨
        ((searchJoin db).filter (searchPred p)).length ≤ (effLimit p.limit).toNat) →
      r ∈ handleSearch db p) := by
  have hperm := List.perm_insertionSort rowOrd ((searchJoin db).filter (searchPred p))
  have hsorted : List.Pairwise rowOrd
      (((searchJoin db).filter (searchPred p)).insertionSort rowOrd) :=
    List.sorted_insertionSort rowOrd _
  have hsound : ∀ r ∈ handleSearch db p,
      r.video ∈ db.videos ∧ r.transcript ∈ db.transcripts ∧
      r.transcript.video_id = r.video.id ∧
      r.video.transcription_status = TStatus.completed ∧
      (∃ x, r.video.ai_rating_score = some x ∧ effMinRating p.min_rating ≤ x) ∧
      searchPred p r = true := by
    intro r hr
    have hrs : r ∈ ((searchJoin db).filter (searchPred p)).insertionSort rowOrd := by
      unfold handleSearch at hr
      split at hr
      · exact hr
      · exact List.mem_of_mem_take hr
    have hrf : r ∈ (searchJoin db).filter (searchPred p) := hperm.mem_iff.mp hrs
    obtain ⟨hj, hpred⟩ := List.mem_filter.mp hrf
    obtain ⟨hv, ht, hid⟩ := mem_searchJoin hj
    have hpred2 := hpred
    simp only [searchPred, Bool.and_eq_true] at hpred2
    obtain ⟨⟨⟨hst, hsc⟩, _⟩, _⟩ := hpred2
    obtain ⟨x, hx, hxm⟩ := sqlGeNum_true hsc
    exact ⟨hv, ht, hid, of_decide_eq_true hst, ⟨x, hx, hxm⟩, hpred⟩
  have hpair : List.Pairwise rowOrd (handleSearch db p) := by
    unfold handleSearch
    split
    · exact hsorted
    · exact List.Pairwise.sublist (List.take_sublist _ _) hsorted
  refine ⟨hsound, hpair, ?_, ?_⟩
  · intro hnn
    unfold handleSearch
    split
    · omega
    · exact List.length_take_le _ _
  · intro r hj hpred hcap
    have hrf : r ∈ (searchJoin db).filter (searchPred p) :=
      List.mem_filter.mpr ⟨hj, hpred⟩
    have hrs : r ∈ ((searchJoin db).filter (searchPred p)).insertionSort rowOrd :=
      hperm.mem_iff.mpr hrf
    unfold handleSearch
    split
    · exact hrs
    · rcases hcap with hneg | hle
      · omega
      · have hlen : (((searchJoin db).filter (searchPred p)).insertionSort rowOrd).length
            ≤ (effLimit p.limit).toNat := by
          rw [hperm.length_eq]
          exact hle
        rw [List.take_of_length_le hlen]
        exact hrs

/-- Counterexample to C4 as stated: with min_rating absent, a completed,
transcribed but never-analysed video (NULL overall score) is not returned,
although the claim says every completed video qualifies. -/
theorem search_excludes_null_score :
    handleSearch dbN noParams = [] ∧
    videoStatus dbN 1 = some TStatus.completed ∧
    dbN.transcripts.map (fun t => t.video_id) = [1] ∧
    (findVideo dbN 1).map (fun v => v.ai_rating_score) = some none := by
  decide

/-- Witness for C4 (amended): the sole matching row of a concrete database is
returned (completeness) and satisfies the characterization (soundness). -/
theorem search_results_characterization_witness :
    r4 ∈ handleSearch db4 noParams ∧
    (r4.video ∈ db4.videos ∧ r4.transcript ∈ db4.transcripts ∧
     r4.transcript.video_id = r4.video.id ∧
     r4.video.transcription_status = TStatus.completed ∧
     (∃ x, r4.video.ai_rating_score = some x ∧ effMinRating noParams.min_rating ≤ x) ∧
     searchPred noParams r4 = true) :=
  ⟨(search_results_characterization db4 noParams).2.2.2 r4 (by decide) (by decide)
     (Or.inr (by decide)),
   (search_results_characterization db4 noParams).1 r4 (by decide)⟩

/-- C5 (amended): the score-document parser returns the parsed document when
the first-brace-to-last-brace substring is well-formed JSON; when that
substring exists but fails to parse, it returns the default score 5.0 with
the low confidence marker 0.3 and does not consult the score token; only when
no brace substring exists does the score token supply the score (5.0 without
one), with confidence 0.6.  It never throws. -/
theorem parse_ai_response_policy (response : Str) :
    (∀ m v, braceMatch response = some m → jsonParse m = some v →
       parseAIResponse response = v) ∧
    (∀ m, braceMatch response = some m → jsonParse m = none →
       jsGetNum (parseAIResponse response) scoreKey = some 5 ∧
       jsGetNum (parseAIResponse response) confidenceKey = some (3 / 10)) ∧
    (braceMatch response = none → ∀ n, scoreToken response = some n →
       jsGetNum (parseAIResponse response) scoreKey = some n ∧
       jsGetNum (parseAIResponse response) confidenceKey = some (6 / 10)) ∧
    (braceMatch response = none → scoreToken response = none →
       jsGetNum (parseAIResponse response) scoreKey = some 5 ∧
       jsGetNum (parseAIResponse response) confidenceKey = some (6 / 10)) := by
  refine ⟨?_, ?_, ?_, ?_⟩
  · intro m v h1 h2
    simp [parseAIResponse, h1, h2]
  · intro m h1 h2
    constructor <;>
      simp +decide [parseAIResponse, h1, h2, jsGetNum, jsGet, scoreKey, reasoningKey,
        confidenceKey, parseErrorKey]
  · intro h1 n h2
    constructor <;>
      simp +decide [parseAIResponse, h1, h2, jsGetNum, jsGet, scoreKey, reasoningKey,
        confidenceKey, parseErrorKey]
  · intro h1 h2
    constructor <;>
      simp +decide [parseAIResponse, h1, h2, jsGetNum, jsGet, scoreKey, reasoningKey,
        confidenceKey, parseErrorKey]

/-- Counterexample to C5 as stated: on text whose brace substring fails to
parse but which carries a score token of 7, the parser returns the default
5.0 with confidence 0.3 - it does not fall back to the token. -/
theorem parse_ai_response_no_token_fallback :
    braceMatch ("\x7bnot json score: 7\x7d").data = some (("\x7bnot json score: 7\x7d").data) ∧
    (jsonParse (("\x7bnot json score: 7\x7d").data)).isNone = true ∧
    scoreToken ("\x7bnot json score: 7\x7d").data = some 7 ∧
    jsGetNum (parseAIResponse ("\x7bnot json score: 7\x7d").data) scoreKey = some 5 ∧
    jsGetNum (parseAIResponse ("\x7bnot json score: 7\x7d").data) confidenceKey
      = some (3 / 10) ∧
    (5 : Rat) ≠ 7 := by
  decide

/-- Witness for C5 (amended): a parseable brace substring yields the parsed
document; token-only text yields the token score with confidence 0.6. -/
theorem parse_ai_response_policy_witness :
    parseAIResponse ("ab \x7b\"score\": 8.5\x7d").data
      = Json.obj [(scoreKey, Json.num (17 / 2))] ∧
    (jsGetNum (parseAIResponse ("the score: 7 ok").data) scoreKey = some 7 ∧
     jsGetNum (parseAIResponse ("the score: 7 ok").data) confidenceKey = some (6 / 10)) :=
  ⟨(parse_ai_response_policy (("ab \x7b\"score\": 8.5\x7d").data)).1
      (("\x7b\"score\": 8.5\x7d").data) (Json.obj [(scoreKey, Json.num (17 / 2))])
      (by decide) rfl,
   (parse_ai_response_policy (("the score: 7 ok").data)).2.2.1 (by decide) 7 (by decide)⟩

/-- A kind whose requested flag is false never appears in a successful
batch, so its score column is written NULL. -/
lemma scoreColumn_of_not_requested (env : AnalyzeEnv) (title text : Str)
    (analysisTypes : List Str) (rs : List (Str × Json)) (k : Str)
    (hr : runAnalyses env title text (requestedKinds analysisTypes) = some rs)
    (hkf : analysisTypes.contains k = false) :
    scoreColumn rs k = none := by
  have hk := runAnalyses_kinds env title text (requestedKinds analysisTypes) rs hr
  have hf : rs.find? (fun p => p.1 = k) = none := by
    refine List.find?_eq_none.mpr (fun p hp => ?_)
    intro hpk
    have hmem : p.1 ∈ rs.map (fun q => q.1) := List.mem_map_of_mem _ hp
    rw [hk] at hmem
    have hcont := (List.mem_filter.mp hmem).2
    rw [of_decide_eq_true hpk] at hcont
    rw [hkf] at hcont
    exact absurd hcont (by decide)
  simp [scoreColumn, hf]

/-- C2 (amended): a successful Analyze batch overwrites every per-kind score
column: each column becomes its kind's score in this batch (NULL when the
kind is absent from the batch or its score is 0), so columns of kinds not
requested are cleared to NULL rather than keeping their previous values. -/
theorem analyze_score_columns (env : AnalyzeEnv) (db : DB) (videoId : Nat)
    (analysisTypes : List Str) (db2 : DB) (rs : List (Str × Json)) (avg : Option Rat)
    (h : handleAIAnalysis env db videoId analysisTypes = (db2, .success rs avg))
    (v2 : Video) (hv2 : findVideo db2 videoId = some v2) :
    v2.content_quality_score = scoreColumn rs qualityKind ∧
    v2.research_relevance_score = scoreColumn rs relevanceKind ∧
    v2.factual_accuracy_score = scoreColumn rs factualKind ∧
    (analysisTypes.contains qualityKind = false → v2.content_quality_score = none) ∧
    (analysisTypes.contains relevanceKind = false → v2.research_relevance_score = none) ∧
    (analysisTypes.contains factualKind = false → v2.factual_accuracy_score = none) := by
  obtain ⟨t, title, hj, hr, havg, hdb2⟩ :=
    handleAIAnalysis_success env db videoId analysisTypes db2 rs avg h
  subst hdb2
  rw [findVideo_updateScores] at hv2
  rcases Option.map_eq_some'.mp hv2 with ⟨v0, hv0, rfl⟩
  exact ⟨rfl, rfl, rfl,
    fun hf => scoreColumn_of_not_requested env title t.transcript_text analysisTypes rs
      qualityKind hr hf,
    fun hf => scoreColumn_of_not_requested env title t.transcript_text analysisTypes rs
      relevanceKind hr hf,
    fun hf => scoreColumn_of_not_requested env title t.transcript_text analysisTypes rs
      factualKind hr hf⟩

/-- Counterexample to C2 as stated: analyzing only quality on a video whose
research relevance was previously 8 nulls the relevance column instead of
leaving it untouched. -/
theorem analyze_clears_unrequested_column :
    (findVideo dbA 1).map (fun v => v.research_relevance_score) = some (some 8) ∧
    ((handleAIAnalysis envScore9 dbA 1 [qualityKind]).2).isSuccess = true ∧
    (findVideo (handleAIAnalysis envScore9 dbA 1 [qualityKind]).1 1).map
      (fun v => v.research_relevance_score) = some none ∧
    (findVideo (handleAIAnalysis envScore9 dbA 1 [qualityKind]).1 1).map
      (fun v => v.content_quality_score) = some (some 9) := by
  decide

/-- Witness for C2 (amended): the quality-only batch on the concrete
database, with the columns it writes. -/
theorem analyze_score_columns_witness :
    handleAIAnalysis envScore9 dbA 1 [qualityKind]
      = ((handleAIAnalysis envScore9 dbA 1 [qualityKind]).1, .success rsQuality9 (some 9)) ∧
    findVideo (handleAIAnalysis envScore9 dbA 1 [qualityKind]).1 1 = some vA2 ∧
    (vA2.content_quality_score = scoreColumn rsQuality9 qualityKind ∧
     vA2.research_relevance_score = scoreColumn rsQuality9 relevanceKind ∧
     vA2.factual_accuracy_score = scoreColumn rsQuality9 factualKind ∧
     (([qualityKind].contains qualityKind) = false → vA2.content_quality_score = none) ∧
     (([qualityKind].contains relevanceKind) = false → vA2.research_relevance_score = none) ∧
     (([qualityKind].contains factualKind) = false → vA2.factual_accuracy_score = none)) :=
  ⟨rfl, by decide,
   analyze_score_columns envScore9 dbA 1 [qualityKind]
     (handleAIAnalysis envScore9 dbA 1 [qualityKind]).1 rsQuality9 (some 9) rfl
     vA2 (by decide)⟩

/-- C7 (amended): after a successful non-empty Analyze batch the overall
score equals the unweighted mean over the batch of each kind's score-or-0,
and each per-kind column reflects only this batch, its kind's score in the
batch or NULL, not the most recent analysis of that kind. -/
theorem analyze_overall_mean (env : AnalyzeEnv) (db : DB) (videoId : Nat)
    (analysisTypes : List Str) (db2 : DB) (rs : List (Str × Json)) (avg : Option Rat)
    (h : handleAIAnalysis env db videoId analysisTypes = (db2, .success rs avg))
    (hne : rs ≠ []) (v2 : Video) (hv2 : findVideo db2 videoId = some v2) :
    avg = some ((rs.map (fun p => scoreOrZero p.2)).sum / rs.length) ∧
    v2.ai_rating_score = avg ∧
    v2.content_quality_score = scoreColumn rs qualityKind ∧
    v2.research_relevance_score = scoreColumn rs relevanceKind ∧
    v2.factual_accuracy_score = scoreColumn rs factualKind := by
  obtain ⟨t, title, hj, hr, havg, hdb2⟩ :=
    handleAIAnalysis_success env db videoId analysisTypes db2 rs avg h
  subst hdb2
  rw [findVideo_updateScores] at hv2
  rcases Option.map_eq_some'.mp hv2 with ⟨v0, hv0, rfl⟩
  have hb : batchAverage rs
      = some ((rs.map (fun p => scoreOrZero p.2)).sum / rs.length) := by
    unfold batchAverage
    rw [if_neg (fun hlen => hne (List.length_eq_zero.mp hlen))]
  exact ⟨havg.trans hb, rfl, rfl, rfl, rfl⟩

/-- Counterexample to C7 as stated: a relevance batch scoring 8 followed by a
quality-only batch leaves the relevance column NULL even though the most
recent relevance analysis row holds the score 8. -/
theorem analyze_column_not_latest_of_kind :
    (lastAnalysisOf (handleAIAnalysis envScore6
        (handleAIAnalysis envScore8 dbA 1 [relevanceKind]).1 1 [qualityKind]).1 1
        relevanceKind).map (fun a => jsGetNum a.analysis_result scoreKey)
      = some (some 8) ∧
    (findVideo (handleAIAnalysis envScore6
        (handleAIAnalysis envScore8 dbA 1 [relevanceKind]).1 1 [qualityKind]).1 1).map
      (fun v => v.research_relevance_score) = some none := by
  decide

/-- Witness for C7 (amended): a quality-and-relevance batch both scoring 9,
with mean 9 and both columns written from this batch. -/
theorem analyze_overall_mean_witness :
    handleAIAnalysis envScore9 dbA 1 [qualityKind, relevanceKind]
      = ((handleAIAnalysis envScore9 dbA 1 [qualityKind, relevanceKind]).1,
         .success rsQR9 (some 9)) ∧
    findVideo (handleAIAnalysis envScore9 dbA 1 [qualityKind, relevanceKind]).1 1
      = some vA3 ∧
    ((some 9 : Option Rat)
        = some ((rsQR9.map (fun p => scoreOrZero p.2)).sum / rsQR9.length) ∧
     vA3.ai_rating_score = some 9 ∧
     vA3.content_quality_score = scoreColumn rsQR9 qualityKind ∧
     vA3.research_relevance_score = scoreColumn rsQR9 relevanceKind ∧
     vA3.factual_accuracy_score = scoreColumn rsQR9 factualKind) :=
  ⟨rfl, by decide,
   analyze_overall_mean envScore9 dbA 1 [qualityKind, relevanceKind]
     (handleAIAnalysis envScore9 dbA 1 [qualityKind, relevanceKind]).1 rsQR9 (some 9)
     rfl (by simp [rsQR9]) vA3 (by decide)⟩

/-- C1: Transcribe on an existing video always terminates with that video in
completed or failed, never pending or processing; ending completed is exactly
the success outcome, which also appends one Transcript row for the video, and
every failure leaves the transcripts unchanged with the video failed. -/
theorem transcribe_status_resolution (env : TransEnv) (db : DB) (videoId : Nat)
    (v : Video) (h0 : videoId ≠ 0) (hv : findVideo db videoId = some v) :
    (videoStatus (handleTranscription env db videoId).1 videoId = some TStatus.completed ∨
      videoStatus (handleTranscription env db videoId).1 videoId = some TStatus.failed) ∧
    ((handleTranscription env db videoId).2.isSuccess = true ↔
      videoStatus (handleTranscription env db videoId).1 videoId = some TStatus.completed) ∧
    ((handleTranscription env db videoId).2.isSuccess = true →
      (handleTranscription env db videoId).1.transcripts.map (fun t => t.video_id)
        = db.transcripts.map (fun t => t.video_id) ++ [videoId]) ∧
    ((handleTranscription env db videoId).2.isSuccess = false →
      (handleTranscription env db videoId).1.transcripts = db.transcripts ∧
      videoStatus (handleTranscription env db videoId).1 videoId = some TStatus.failed) := by
  have hp : findVideo (setStatus db videoId .processing) videoId
      = some { v with transcription_status := .processing } := by
    rw [findVideo_setStatus, hv]; rfl
  rcases handleTranscription_shape env db videoId v h0 hv with h | ⟨w, h⟩
  · rw [h]
    have hfail : videoStatus (setStatus (setStatus db videoId .processing) videoId .failed)
        videoId = some TStatus.failed :=
      videoStatus_setStatus _ _ _ _ hp
    refine ⟨Or.inr hfail, ?_, ?_, ?_⟩
    · simp [TResult.isSuccess, hfail]
    · simp [TResult.isSuccess]
    · intro _
      exact ⟨rfl, hfail⟩
  · rw [h]
    have hcomp : videoStatus
        (setStatus
          { setStatus db videoId .processing with
            transcripts := (setStatus db videoId .processing).transcripts ++
              [{ id := nextTranscriptId (setStatus db videoId .processing)
                 video_id := videoId
                 transcript_text := w.text
                 confidence_score := jsOrRat w.confidence (95 / 100)
                 word_count := countWords w.text
                 processing_time_ms := 0 }] }
          videoId .completed) videoId = some TStatus.completed :=
      videoStatus_setStatus _ _ _ _ hp
    refine ⟨Or.inl hcomp, ?_, ?_, ?_⟩
    · simp [TResult.isSuccess, hcomp]
    · intro _
      simp [setStatus, List.map_append]
    · simp [TResult.isSuccess]

/-- Witness for C1: a successful R2-backed transcription run on a concrete
database ends completed with one appended transcript row. -/
theorem transcribe_status_resolution_witness :
    findVideo dbT 1 = some vT ∧
    videoStatus (handleTranscription envT dbT 1).1 1 = some TStatus.completed ∧
    (handleTranscription envT dbT 1).2.isSuccess = true ∧
    (handleTranscription envT dbT 1).1.transcripts.map (fun t => t.video_id) = [1] :=
  ⟨by decide,
   ((transcribe_status_resolution envT dbT 1 vT (by decide) (by decide)).2.1).mp (by decide),
   by decide,
   by simpa using
     (transcribe_status_resolution envT dbT 1 vT (by decide) (by decide)).2.2.1 (by decide)⟩

/-- C8 (amended): the storage locator alone selects the byte-resolution
adapter in Transcribe: a stream-prefixed locator resolves through the video
host adapter (with the second colon-separated field as uid, and the stage
fails when that call fails), while every other locator, the literal extracted
marker included, resolves through the R2 content store. -/
theorem byte_resolution_dispatch (env : TransEnv) (db : DB) (videoId : Nat) (v : Video)
    (fp : Str) (h0 : videoId ≠ 0) (hv : findVideo db videoId = some v)
    (hfp : v.file_path = some fp) :
    (jsStartsWith fp streamColon = true →
      byteSource fp = .stream ((jsSplitChar ':' fp).getD 1 []) ∧
      (env.streamDownload ((jsSplitChar ':' fp).getD 1 []) = none →
        (handleTranscription env db videoId).2 = .failure)) ∧
    (jsStartsWith fp streamColon = false →
      byteSource fp = .r2 fp ∧
      (env.r2Get fp = none → (handleTranscription env db videoId).2 = .failure)) := by
  constructor
  · intro hs
    have hb : byteSource fp = .stream ((jsSplitChar ':' fp).getD 1 []) := by
      simp [byteSource, hs]
    refine ⟨hb, fun hsd => ?_⟩
    have hsd2 : env.streamDownload ((jsSplitChar ':' fp)[1]?.getD []) = none := by
      simpa using hsd
    simp [handleTranscription, if_neg h0, hv, hfp, hb, hsd2]
  · intro hs
    have hb : byteSource fp = .r2 fp := by
      simp [byteSource, hs]
    refine ⟨hb, fun hrg => ?_⟩
    simp [handleTranscription, if_neg h0, hv, hfp, hb, hrg]

/-- Counterexample to C8 as stated: the literal extracted locator does
trigger byte resolution, through the content store, so transcribing an
extracted-content video attempts an R2 lookup and fails, even though its
transcript is already present. -/
theorem extracted_resolves_via_content_store :
    byteSource extractedMarker = .r2 extractedMarker ∧
    (handleTranscription envFail dbX 1).2 = .failure ∧
    videoStatus (handleTranscription envFail dbX 1).1 1 = some TStatus.failed ∧
    dbX.transcripts.map (fun t => t.video_id) = [1] := by
  decide

/-- Witness for C8 (amended): a stream-locator video resolves through the
host adapter, whose failure fails the stage. -/
theorem byte_resolution_dispatch_witness :
    byteSource ("stream:abc").data = ByteSource.stream ("abc").data ∧
    (handleTranscription envFail dbS 1).2 = TResult.failure :=
  ⟨((byte_resolution_dispatch envFail dbS 1 vS ("stream:abc").data (by decide)
      (by decide) rfl).1 (by decide)).1,
   ((byte_resolution_dispatch envFail dbS 1 vS ("stream:abc").data (by decide)
      (by decide) rfl).1 (by decide)).2 (by decide)⟩

end TTSWorker
